import Mathlib

/-!
Verification of the OSH LKML backend (EArakoni/OSH, `Backend/src`).

This file gives a shallow embedding, in Lean 4, of the algorithmic core of
the backend:

* `src/parser/thread_builder.py` — `ThreadBuilder` (thread resolution,
  thread metadata, subject-tag extraction);
* `src/parser/email_parser.py` — the Message-ID cleaning used by
  `EmailParser._parse_message`;
* `src/llm/gemini_client.py` — the retry wrapper, the rolling-window rate
  limiter, smart thread truncation, JSON-response parsing, the error-summary
  shape and the cache discipline of the summarize methods;
* `src/llm/summarizer.py` — `LKMLSummarizer.summarize_thread`;
* `src/database/db.py` — `Database.insert_email` (the unique constraint on
  `message_id` lives in `schema.sql`, which is not part of the sources and
  is modelled from the spec, as indicated below).

Python dictionaries produced by the parsers are modelled by the `Email`
structure; machine floats (wall-clock times in the rate limiter) are
modelled by rationals; Python string operations are re-implemented over
`List Char` so that all definitions evaluate inside the kernel.
-/

namespace OSH

/-- Canonical e-mail record, as produced by `EmailParser._parse_message`
and consumed by `ThreadBuilder` (keys `message_id`, `subject`, `from`,
`date`, `in_reply_to`, `references`, `body`, `raw`). The Python key
`from` is called `from_addr` here. -/
structure Email where
  message_id : String
  subject : String
  from_addr : String
  date : String
  in_reply_to : String
  references : List String
  body : String
  raw : String
deriving DecidableEq, Repr

/-! ### ThreadBuilder (`src/parser/thread_builder.py`) -/

/-- `ThreadBuilder.__init__`: `self.email_map = {e['message_id']: e for e in
emails if e.get('message_id')}`. Emails with a falsy (empty) `message_id`
are skipped; for duplicate keys the later email wins, hence the lookup
searches the reversed filtered list. -/
def email_map (emails : List Email) (id : String) : Option Email :=
  ((emails.filter (fun e => !(e.message_id == ""))).reverse).find?
    (fun e => e.message_id == id)

/-- The `while` loop of `ThreadBuilder._find_thread_root`, lines 63-91.
`visited` is the visited set, `current` the id under examination. The loop
is bounded by a fuel argument; each iteration either stops (repeat in
`visited`, id absent from the index, or root found) or moves to a parent id
that is a key of the index, so fuel `emails.length + 2` is never exhausted
(the visited set grows by one fresh index key per iteration). -/
def findRootAux (emap : String → Option Email) :
    Nat → List String → String → String
  | 0, _, current => current
  | n + 1, visited, current =>
    if visited.contains current then
      -- Circular reference detected: the loop breaks and the function
      -- returns `current_id`.
      current
    else
      match emap current with
      | none => current
      | some ce =>
        if ce.in_reply_to != "" && (emap ce.in_reply_to).isSome then
          findRootAux emap n (current :: visited) ce.in_reply_to
        else
          match ce.references with
          | [] => current
          | r :: _ => if (emap r).isSome then r else current

/-- `ThreadBuilder._find_thread_root` (lines 40-92): an email with an empty
`message_id` resolves to `''`; otherwise the reply chain is walked through
`email_map`. -/
def find_thread_root (emails : List Email) (email : Email) : String :=
  if email.message_id = "" then ""
  else findRootAux (email_map emails) (emails.length + 2) [] email.message_id

/-- `ThreadBuilder.build_threads` (lines 17-38): the partition
`root_message_id -> list of member emails`, members listed in input order
(`threads[root_id].append(email)` while iterating `self.emails`). -/
def build_threads (emails : List Email) (root : String) : List Email :=
  emails.filter (fun e => find_thread_root emails e == root)

/-- The multiset of keys of the dictionary returned by `build_threads`:
one root identity per input email. -/
def thread_roots (emails : List Email) : List String :=
  emails.map (find_thread_root emails)

lemma mem_build_threads {emails : List Email} {r : String} {e : Email} :
    e ∈ build_threads emails r ↔ e ∈ emails ∧ find_thread_root emails e = r := by
  simp [build_threads, List.mem_filter]

/-! ### C1: two-email reply cycle -/

/-- Email A of the C1 scenario: `in_reply_to` points at B. -/
def c1A : Email :=
  { message_id := "a@x", subject := "s1", from_addr := "p@q", date := "2024-10-18T10:00:00",
    in_reply_to := "b@x", references := [], body := "", raw := "" }

/-- Email B of the C1 scenario: `in_reply_to` points back at A. -/
def c1B : Email :=
  { message_id := "b@x", subject := "s2", from_addr := "r@q", date := "2024-10-18T11:00:00",
    in_reply_to := "a@x", references := [], body := "", raw := "" }

/-- The two-email batch of the C1 scenario. -/
def c1batch : List Email := [c1A, c1B]

/-- C1 (counterexample): on the cyclic batch {A replies to B, B replies to
A} the resolver terminates, but A resolves to root `a@x` and B to root
`b@x`; neither email is a member of the other's thread, so A and B do NOT
land in one and the same thread — the partition has two singleton threads. -/
theorem c1_cycle_two_threads_counterexample :
    find_thread_root c1batch c1A = "a@x" ∧
    find_thread_root c1batch c1B = "b@x" ∧
    find_thread_root c1batch c1A ≠ find_thread_root c1batch c1B ∧
    c1B ∉ build_threads c1batch (find_thread_root c1batch c1A) ∧
    c1A ∉ build_threads c1batch (find_thread_root c1batch c1B) := by
  refine ⟨by decide, by decide, by decide, by decide, by decide⟩

/-- C1 (amended): for any two emails A, B with distinct non-empty ids that
reply to each other, resolution of the batch `[A, B]` terminates without
infinite looping — the cycle is detected via the visited set — but each
email becomes its own root: the partition consists of the two singleton
threads `[A]` (under A's id) and `[B]` (under B's id), not of one shared
thread. -/
theorem c1_cycle_amended (A B : Email)
    (hA : A.message_id ≠ "") (hB : B.message_id ≠ "")
    (hne : A.message_id ≠ B.message_id)
    (hAB : A.in_reply_to = B.message_id) (hBA : B.in_reply_to = A.message_id) :
    find_thread_root [A, B] A = A.message_id ∧
    find_thread_root [A, B] B = B.message_id ∧
    build_threads [A, B] A.message_id = [A] ∧
    build_threads [A, B] B.message_id = [B] := by
  have hA' : (A.message_id == "") = false := beq_eq_false_iff_ne.mpr hA
  have hB' : (B.message_id == "") = false := beq_eq_false_iff_ne.mpr hB
  have hne' : (B.message_id == A.message_id) = false :=
    beq_eq_false_iff_ne.mpr (Ne.symm hne)
  have hne'' : (A.message_id == B.message_id) = false := beq_eq_false_iff_ne.mpr hne
  have hmapA : email_map [A, B] A.message_id = some A := by
    simp [email_map, List.filter, hA', hB', List.find?, hne', beq_self_eq_true]
  have hmapB : email_map [A, B] B.message_id = some B := by
    simp [email_map, List.filter, hA', hB', List.find?, beq_self_eq_true]
  have hlen : ([A, B] : List Email).length + 2 = 4 := rfl
  have hrootA : find_thread_root [A, B] A = A.message_id := by
    rw [find_thread_root, if_neg hA, hlen]
    show findRootAux (email_map [A, B]) 4 [] A.message_id = A.message_id
    rw [findRootAux]
    simp only [List.contains, List.elem, hmapA, hAB]
    rw [if_neg (by simp), if_pos (by simp [hmapB, bne, hB'])]
    rw [findRootAux]
    simp only [List.contains, List.elem, hmapB, hBA, hne']
    rw [if_neg (by simp [hne']), if_pos (by simp [hmapA, bne, hA'])]
    rw [findRootAux]
    simp [List.contains, List.elem, hne'', beq_self_eq_true]
  have hrootB : find_thread_root [A, B] B = B.message_id := by
    rw [find_thread_root, if_neg hB, hlen]
    show findRootAux (email_map [A, B]) 4 [] B.message_id = B.message_id
    rw [findRootAux]
    simp only [List.contains, List.elem, hmapB, hBA]
    rw [if_neg (by simp), if_pos (by simp [hmapA, bne, hA'])]
    rw [findRootAux]
    simp only [List.contains, List.elem, hmapA, hAB, hne'']
    rw [if_neg (by simp [hne'']), if_pos (by simp [hmapB, bne, hB'])]
    rw [findRootAux]
    simp [List.contains, List.elem, hne', beq_self_eq_true]
  refine ⟨hrootA, hrootB, ?_, ?_⟩
  · simp [build_threads, List.filter, hrootA, hrootB, beq_self_eq_true, hne']
  · simp [build_threads, List.filter, hrootA, hrootB, beq_self_eq_true, hne'']

/-- Witness for `c1_cycle_amended` at the concrete C1 batch. -/
theorem c1_cycle_amended_witness :
    (c1A.message_id ≠ "" ∧ c1B.message_id ≠ "" ∧
      c1A.message_id ≠ c1B.message_id ∧
      c1A.in_reply_to = c1B.message_id ∧ c1B.in_reply_to = c1A.message_id) ∧
    build_threads [c1A, c1B] c1A.message_id = [c1A] :=
  ⟨⟨by decide, by decide, by decide, by decide, by decide⟩,
    (c1_cycle_amended c1A c1B (by decide) (by decide) (by decide) (by decide)
      (by decide)).2.2.1⟩

/-! ### C6: order-independence of thread resolution -/

lemma find?_eq_of_perm_of_unique {α : Type} (p : α → Bool) {l₁ l₂ : List α}
    (h : l₁.Perm l₂)
    (hu : ∀ a ∈ l₁, ∀ b ∈ l₁, p a → p b → a = b) :
    l₁.find? p = l₂.find? p := by
  cases hfind : l₁.find? p with
  | none =>
    have hnone : ∀ x ∈ l₂, ¬ p x := by
      intro x hx
      have := List.find?_eq_none.mp hfind x (h.mem_iff.mpr hx)
      simpa using this
    symm
    exact List.find?_eq_none.mpr (by intro x hx; simpa using hnone x hx)
  | some a =>
    have hpa : p a := List.find?_some hfind
    have hal : a ∈ l₁ := List.mem_of_find?_eq_some hfind
    have hsome : (l₂.find? p).isSome :=
      List.find?_isSome.mpr ⟨a, h.mem_iff.mp hal, hpa⟩
    cases hfind₂ : l₂.find? p with
    | none => rw [hfind₂] at hsome; simp at hsome
    | some b =>
      have hpb : p b := List.find?_some hfind₂
      have hbl : b ∈ l₁ := h.mem_iff.mpr (List.mem_of_find?_eq_some hfind₂)
      exact congrArg some (hu a hal b hbl hpa hpb)

lemma email_map_eq_of_perm {l₁ l₂ : List Email} (h : l₁.Perm l₂)
    (hnd : (l₁.map Email.message_id).Nodup) :
    email_map l₁ = email_map l₂ := by
  funext id
  unfold email_map
  have hperm :
      ((l₁.filter (fun e => !(e.message_id == ""))).reverse).Perm
        ((l₂.filter (fun e => !(e.message_id == ""))).reverse) :=
    ((List.reverse_perm _).trans (h.filter _)).trans
      (List.reverse_perm _).symm
  exact find?_eq_of_perm_of_unique _ hperm (by
    intro a ha b hb hpa hpb
    have ha' : a ∈ l₁ :=
      List.mem_of_mem_filter (List.mem_reverse.mp ha)
    have hb' : b ∈ l₁ :=
      List.mem_of_mem_filter (List.mem_reverse.mp hb)
    have hida : a.message_id = id := by simpa using hpa
    have hidb : b.message_id = id := by simpa using hpb
    exact List.inj_on_of_nodup_map hnd ha' hb' (hida.trans hidb.symm))

lemma find_thread_root_eq_of_perm {l₁ l₂ : List Email} (h : l₁.Perm l₂)
    (hnd : (l₁.map Email.message_id).Nodup) (e : Email) :
    find_thread_root l₁ e = find_thread_root l₂ e := by
  unfold find_thread_root
  rw [email_map_eq_of_perm h hnd, h.length_eq]

/-- C6: permuting an Email batch with pairwise-distinct `message_id`s does
not change the partition produced by `build_threads`: the multiset of root
identities is the same (same set of dictionary keys) and, for each root,
membership of the member list is the same. -/
theorem c6_build_threads_order_independent (l₁ l₂ : List Email)
    (h : l₁.Perm l₂) (hnd : (l₁.map Email.message_id).Nodup) :
    (∀ r, r ∈ thread_roots l₁ ↔ r ∈ thread_roots l₂) ∧
    (∀ r e, e ∈ build_threads l₁ r ↔ e ∈ build_threads l₂ r) := by
  constructor
  · intro r
    unfold thread_roots
    constructor
    · intro hr
      rcases List.mem_map.mp hr with ⟨e, he, hroot⟩
      exact List.mem_map.mpr ⟨e, h.mem_iff.mp he,
        (find_thread_root_eq_of_perm h hnd e).symm.trans hroot⟩
    · intro hr
      rcases List.mem_map.mp hr with ⟨e, he, hroot⟩
      exact List.mem_map.mpr ⟨e, h.mem_iff.mpr he,
        (find_thread_root_eq_of_perm h hnd e).trans hroot⟩
  · intro r e
    rw [mem_build_threads, mem_build_threads, h.mem_iff,
      find_thread_root_eq_of_perm h hnd e]

/-- First email of the C6 witness batch. -/
def c6A : Email :=
  { message_id := "m1", subject := "t", from_addr := "u", date := "d1",
    in_reply_to := "", references := [], body := "", raw := "" }

/-- Second email of the C6 witness batch, a reply to the first. -/
def c6B : Email :=
  { message_id := "m2", subject := "Re: t", from_addr := "v", date := "d2",
    in_reply_to := "m1", references := [], body := "", raw := "" }

/-- Witness for `c6_build_threads_order_independent`: the batch
`[c6A, c6B]` against its shuffle `[c6B, c6A]`. -/
theorem c6_build_threads_order_independent_witness :
    (([c6A, c6B] : List Email).Perm [c6B, c6A] ∧
      (([c6A, c6B] : List Email).map Email.message_id).Nodup) ∧
    (c6B ∈ build_threads [c6A, c6B] "m1" ↔ c6B ∈ build_threads [c6B, c6A] "m1") :=
  ⟨⟨by decide, by decide⟩,
    (c6_build_threads_order_independent [c6A, c6B] [c6B, c6A]
      (by decide) (by decide)).2 "m1" c6B⟩

/-! ### Thread metadata (`get_thread_metadata`, `_extract_tags`) -/

/-- `re.findall` for the pattern `\[([^\]]+)\]` used by
`ThreadBuilder._extract_tags`: scan left to right; at each `[`, greedily
take the maximal run of non-`]` characters; if it is non-empty and followed
by `]` the run is one match and scanning resumes after the `]`, otherwise
the engine advances one character. -/
def extract_tags_go : Nat → List Char → List String
  | 0, _ => []
  | _, [] => []
  | fuel + 1, c :: rest =>
    if c = '[' then
      match rest.dropWhile (fun d => !(d == ']')) with
      | ']' :: tail =>
        let tok := rest.takeWhile (fun d => !(d == ']'))
        if tok.isEmpty then extract_tags_go fuel rest
        else tok.asString :: extract_tags_go fuel tail
      | _ => extract_tags_go fuel rest
    else extract_tags_go fuel rest

/-- `ThreadBuilder._extract_tags` (lines 131-140). Every recursive step of
`extract_tags_go` strictly shortens the character list while consuming one
unit of fuel, so fuel equal to the subject length is never exhausted. -/
def extract_tags (subject : String) : List String :=
  extract_tags_go subject.toList.length subject.toList

/-- Lexicographic (code-point) comparison on character lists, modelling
Python string `<=` as used by `list.sort()` on ISO-8601 date strings. -/
def lexLe : List Char → List Char → Bool
  | [], _ => true
  | _ :: _, [] => false
  | a :: as, b :: bs => if a < b then true else if a = b then lexLe as bs else false

/-- Insertion of a string into a lexicographically sorted list. -/
def insortStr (x : String) : List String → List String
  | [] => [x]
  | y :: ys => if lexLe x.toList y.toList then x :: y :: ys else y :: insortStr x ys

/-- `dates.sort()` from `get_thread_metadata`: ascending lexicographic sort
of the date strings (insertion sort; same sorted result as Python's sort). -/
def sortStrings (l : List String) : List String := l.foldr insortStr []

/-- The dictionary returned by `ThreadBuilder.get_thread_metadata`
(lines 121-129). -/
structure ThreadMeta where
  root_message_id : String
  subject : String
  participant_count : Nat
  email_count : Nat
  first_post : Option String
  last_post : Option String
  tags : List String
deriving DecidableEq, Repr

/-- `ThreadBuilder.get_thread_metadata` (lines 94-129): `none` models the
empty dict returned for an empty member list; otherwise the statistics are
computed from the member list, with `root_email = thread_emails[0]`. -/
def get_thread_metadata (thread_emails : List Email) : Option ThreadMeta :=
  match thread_emails with
  | [] => none
  | root_email :: _ =>
    let participants :=
      ((thread_emails.map Email.from_addr).filter (fun f => !(f == ""))).dedup
    let dates :=
      sortStrings ((thread_emails.map Email.date).filter (fun d => !(d == "")))
    some
      { root_message_id := root_email.message_id
        subject := root_email.subject
        participant_count := participants.length
        email_count := thread_emails.length
        first_post := dates.head?
        last_post := dates.getLast?
        tags := extract_tags root_email.subject }

/-! ### C5: metadata of a `build_threads` member list -/

/-- Root email of the C5 counterexample batch (no parent). -/
def c5A : Email :=
  { message_id := "a", subject := "[PATCH v2] fix", from_addr := "alice",
    date := "2024-10-18T10:00:00", in_reply_to := "", references := [],
    body := "", raw := "" }

/-- Reply email of the C5 counterexample batch (replies to `c5A`, subject
without bracketed tags). -/
def c5B : Email :=
  { message_id := "b", subject := "Re: fix", from_addr := "bob",
    date := "2024-10-18T11:00:00", in_reply_to := "a", references := [],
    body := "", raw := "" }

/-- The C5 batch lists the reply BEFORE the root. -/
def c5batch : List Email := [c5B, c5A]

/-- C5 (counterexample): on the batch `[c5B, c5A]` the thread with
partition key `"a"` (the root email is `c5A`) has member list
`[c5B, c5A]`, and `get_thread_metadata` reports `root_message_id = "b"`,
subject `"Re: fix"` and tags `[]` — taken from the first-listed member
`c5B`, not from the root email `c5A` (id `"a"`, tags `["PATCH v2"]`). -/
theorem c5_metadata_counterexample :
    "a" ∈ thread_roots c5batch ∧
    build_threads c5batch "a" = [c5B, c5A] ∧
    (get_thread_metadata (build_threads c5batch "a")).map ThreadMeta.root_message_id
      = some "b" ∧
    (get_thread_metadata (build_threads c5batch "a")).map ThreadMeta.subject
      = some "Re: fix" ∧
    (get_thread_metadata (build_threads c5batch "a")).map ThreadMeta.tags
      = some [] ∧
    c5A.message_id = "a" ∧
    extract_tags c5A.subject = ["PATCH v2"] := by
  refine ⟨by decide, by decide, by decide, by decide, by decide, by decide, by decide⟩

/-- C5 (amended): for every non-empty member list produced by
`build_threads` under key `root_id`, the metadata's `root_message_id`,
`subject` and `tags` are those of the FIRST member of the list (the
earliest batch email resolving to `root_id`), which coincide with the root
email's exactly when that first member is the root email itself. -/
theorem c5_metadata_from_first_member (emails : List Email) (root_id : String)
    (h : build_threads emails root_id ≠ []) :
    ∃ e, (build_threads emails root_id).head? = some e ∧
      (get_thread_metadata (build_threads emails root_id)).map ThreadMeta.root_message_id
        = some e.message_id ∧
      (get_thread_metadata (build_threads emails root_id)).map ThreadMeta.subject
        = some e.subject ∧
      (get_thread_metadata (build_threads emails root_id)).map ThreadMeta.tags
        = some (extract_tags e.subject) := by
  cases hm : build_threads emails root_id with
  | nil => exact absurd hm h
  | cons e rest =>
    refine ⟨e, rfl, ?_, ?_, ?_⟩ <;> simp [get_thread_metadata]

/-- Witness for `c5_metadata_from_first_member` on the C5 batch. -/
theorem c5_metadata_from_first_member_witness :
    (build_threads c5batch "a" ≠ []) ∧
    (∃ e, (build_threads c5batch "a").head? = some e ∧
      (get_thread_metadata (build_threads c5batch "a")).map ThreadMeta.root_message_id
        = some e.message_id ∧
      (get_thread_metadata (build_threads c5batch "a")).map ThreadMeta.subject
        = some e.subject ∧
      (get_thread_metadata (build_threads c5batch "a")).map ThreadMeta.tags
        = some (extract_tags e.subject)) :=
  ⟨by decide, c5_metadata_from_first_member c5batch "a" (by decide)⟩

/-! ### Smart thread truncation (`GeminiClient._smart_truncate_thread`) -/

/-- Substring test on character lists: Python's `needle in hay`. -/
def list_contains_sub (needle : List Char) : List Char → Bool
  | [] => needle.isEmpty
  | c :: rest => needle.isPrefixOf (c :: rest) || list_contains_sub needle rest

/-- The patch test of `_smart_truncate_thread` lines 396-399:
`'[PATCH' in subject.upper() or '[RFC' in subject.upper()`. -/
def is_patch_email (e : Email) : Bool :=
  let s := e.subject.toList.map Char.toUpper
  list_contains_sub "[PATCH".toList s || list_contains_sub "[RFC".toList s

/-- The de-duplication loop of `_smart_truncate_thread` lines 407-414:
keep the first occurrence of each `message_id`, in order. -/
def dedup_by_id (seen : List String) : List Email → List Email
  | [] => []
  | e :: rest =>
    if seen.contains e.message_id then dedup_by_id seen rest
    else e :: dedup_by_id (e.message_id :: seen) rest

/-- `GeminiClient._smart_truncate_thread` (lines 383-417): threads of at
most 10 emails pass through unchanged; otherwise keep the first (root)
email, up to 3 patch/RFC emails drawn from `thread_emails[1:-3]`, and the
last 3 emails, de-duplicated by identity in that order. -/
def smart_truncate_thread (l : List Email) : List Email :=
  if l.length ≤ 10 then l
  else
    let patch_pool := (l.take (l.length - 3)).drop 1
    let keep :=
      l.take 1 ++ (patch_pool.filter is_patch_email).take 3 ++ l.drop (l.length - 3)
    dedup_by_id [] keep

/-- The middle block selected by the truncation: up to 3 patch/RFC emails
from `thread_emails[1:-3]`. -/
def c8_patch_pick (l : List Email) : List Email :=
  (((l.take (l.length - 3)).drop 1).filter is_patch_email).take 3

lemma contains_eq_false_of_not_mem {a : String} {l : List String} (h : a ∉ l) :
    l.contains a = false := by
  simpa using h

lemma dedup_by_id_eq_self (seen : List String) (l : List Email)
    (hnd : (l.map Email.message_id).Nodup)
    (hdisj : ∀ e ∈ l, e.message_id ∉ seen) :
    dedup_by_id seen l = l := by
  induction l generalizing seen with
  | nil => rfl
  | cons e rest ih =>
    rw [dedup_by_id,
      contains_eq_false_of_not_mem (hdisj e (List.mem_cons_self e rest))]
    simp only [Bool.false_eq_true, if_false]
    congr 1
    refine ih (e.message_id :: seen) ((List.nodup_cons.mp (by simpa using hnd)).2) ?_
    intro x hx hmem
    rcases List.mem_cons.mp hmem with hx' | hx'
    · have : e.message_id ∉ rest.map Email.message_id :=
        (List.nodup_cons.mp (by simpa using hnd)).1
      exact this (hx' ▸ List.mem_map_of_mem Email.message_id hx)
    · exact hdisj x (List.mem_cons_of_mem e hx) hx'

/-! ### C8: truncation of an over-budget thread -/

/-- C8: on any over-budget thread (more than 10 emails) with
pairwise-distinct identities, the truncated selection is exactly the first
(root) message, followed by at most 3 patch/RFC-subject messages drawn
from the middle, followed by the last 3 messages; it is a sublist of the
input (chronological order preserved), it repeats no identity, and it
contains the root and each of the last 3 messages. Determinism is
immediate: `smart_truncate_thread` is a function of the thread contents
alone. -/
theorem c8_truncation_structure (l : List Email)
    (hlen : 10 < l.length) (hnd : (l.map Email.message_id).Nodup) :
    smart_truncate_thread l
        = l.take 1 ++ c8_patch_pick l ++ l.drop (l.length - 3) ∧
    (c8_patch_pick l).length ≤ 3 ∧
    (∀ e ∈ c8_patch_pick l, is_patch_email e = true) ∧
    (∀ e ∈ l.take 1, e ∈ smart_truncate_thread l) ∧
    (∀ e ∈ l.drop (l.length - 3), e ∈ smart_truncate_thread l) ∧
    (smart_truncate_thread l).Sublist l ∧
    ((smart_truncate_thread l).map Email.message_id).Nodup := by
  set P := c8_patch_pick l with hP
  set keep := l.take 1 ++ P ++ l.drop (l.length - 3) with hkeep
  have hpool :
      P.Sublist ((l.take (l.length - 3)).drop 1) :=
    (List.take_sublist 3 _).trans (List.filter_sublist _)
  have hdecomp :
      l = l.take 1 ++ (l.take (l.length - 3)).drop 1 ++ l.drop (l.length - 3) := by
    conv_lhs => rw [← List.take_append_drop (l.length - 3) l]
    congr 1
    have h1 : (l.take (l.length - 3)).take 1 = l.take 1 := by
      rw [List.take_take]
      congr 1
      omega
    conv_lhs => rw [← List.take_append_drop 1 (l.take (l.length - 3))]
    rw [h1]
  have hkeep_sub : keep.Sublist l := by
    rw [hkeep]
    conv_rhs => rw [hdecomp]
    exact ((List.Sublist.refl _).append hpool).append (List.Sublist.refl _)
  have hkeep_nd : (keep.map Email.message_id).Nodup :=
    hnd.sublist (hkeep_sub.map Email.message_id)
  have heq : smart_truncate_thread l = keep := by
    rw [smart_truncate_thread, if_neg (by omega)]
    exact dedup_by_id_eq_self [] _ hkeep_nd (by simp)
  refine ⟨heq, ?_, ?_, ?_, ?_, ?_, ?_⟩
  · rw [hP, c8_patch_pick]
    exact (List.length_take _ _).le.trans (min_le_left _ _)
  · intro e he
    exact (List.mem_filter.mp (List.mem_of_mem_take he)).2
  · intro e he
    rw [heq, hkeep]
    simp only [List.mem_append]
    exact Or.inl (Or.inl he)
  · intro e he
    rw [heq, hkeep]
    simp only [List.mem_append]
    exact Or.inr he
  · rw [heq]; exact hkeep_sub
  · rw [heq]; exact hkeep_nd

/-- One email of the C8 witness thread. -/
def c8mk (i : Nat) (subj : String) : Email :=
  { message_id := "m" ++ toString i, subject := subj, from_addr := "u",
    date := "d", in_reply_to := "", references := [], body := "", raw := "" }

/-- The C8 witness thread: 11 emails, some with patch subjects. -/
def c8batch : List Email :=
  [c8mk 1 "[PATCH 0/5] series", c8mk 2 "[PATCH 1/5] a", c8mk 3 "Re: a",
   c8mk 4 "[RFC] idea", c8mk 5 "Re: idea", c8mk 6 "[PATCH 2/5] b",
   c8mk 7 "Re: b", c8mk 8 "[PATCH 3/5] c", c8mk 9 "Re: c",
   c8mk 10 "Re: series", c8mk 11 "ping"]

/-- Witness for `c8_truncation_structure` on the 11-email thread. -/
theorem c8_truncation_structure_witness :
    (10 < c8batch.length ∧ (c8batch.map Email.message_id).Nodup) ∧
    smart_truncate_thread c8batch
      = c8batch.take 1 ++ c8_patch_pick c8batch ++ c8batch.drop (c8batch.length - 3) :=
  ⟨⟨by decide, by decide⟩,
    (c8_truncation_structure c8batch (by decide) (by decide)).1⟩

/-! ### Retry wrapper (`GeminiClient._generate_content_with_retry`) -/

/-- Result of the tenacity-wrapped call: the final outcome, the number of
attempts actually made, and the back-off sleeps (in seconds) inserted
between attempts. -/
structure RetryRun (α : Type) where
  result : Except String α
  attempts : Nat
  waits : List Nat
deriving Repr

/-- `wait_exponential(multiplier=1, min=2, max=10)`: the sleep after failed
attempt number `n` is `1 * 2 ^ n`, clamped to the interval `[2, 10]` —
2s after the first attempt, 4s after the second. -/
def tenacity_wait (n : Nat) : Nat := min 10 (max 2 (2 ^ n))

/-- The retry predicate of the decorator (lines 176-180):
`retry_if_exception_type((ConnectionError, TimeoutError, Exception))`.
Every raised error is an instance of `Exception`, so every failure —
including the quota and safety failures re-raised on lines 208-213 — is
retryable. -/
def retry_on_error (_e : String) : Bool := true

/-- The tenacity driver: run attempt number `attempt`; on success stop; on
an error matching the retry predicate, sleep and retry while attempts
remain (`remaining` counts the retries still allowed by
`stop_after_attempt`); otherwise re-raise. -/
def retry_loop {α : Type} (call : Nat → Except String α) :
    Nat → Nat → RetryRun α
  | attempt, 0 =>
    match call attempt with
    | .ok v => ⟨.ok v, attempt, []⟩
    | .error e => ⟨.error e, attempt, []⟩
  | attempt, remaining + 1 =>
    match call attempt with
    | .ok v => ⟨.ok v, attempt, []⟩
    | .error e =>
      if retry_on_error e then
        let rest := retry_loop call (attempt + 1) remaining
        ⟨rest.result, rest.attempts, tenacity_wait attempt :: rest.waits⟩
      else ⟨.error e, attempt, []⟩

/-- `GeminiClient._generate_content_with_retry` (lines 173-216):
`stop_after_attempt(3)` — one initial attempt plus at most two retries.
`call n` is the outcome of the n-th (1-based) invocation of
`model.generate_content`: `.ok text` for a response with text, `.error e`
for a raised exception rendered as its message. -/
def generate_content_with_retry {α : Type} (call : Nat → Except String α) :
    RetryRun α :=
  retry_loop call 1 2

lemma retry_loop_spec {α : Type} (call : Nat → Except String α) :
    ∀ (remaining attempt : Nat),
      (retry_loop call attempt remaining).attempts ≤ attempt + remaining ∧
      attempt ≤ (retry_loop call attempt remaining).attempts ∧
      (retry_loop call attempt remaining).result
        = call (retry_loop call attempt remaining).attempts ∧
      (∀ k, attempt ≤ k → k < (retry_loop call attempt remaining).attempts →
        ∃ e, call k = .error e) ∧
      (retry_loop call attempt remaining).waits
        = (List.range ((retry_loop call attempt remaining).attempts - attempt)).map
            (fun i => tenacity_wait (attempt + i)) := by
  intro remaining
  induction remaining with
  | zero =>
    intro attempt
    cases hc : call attempt with
    | ok v =>
      have hr : retry_loop call attempt 0 = ⟨.ok v, attempt, []⟩ := by
        rw [retry_loop, hc]
      rw [hr]
      dsimp only
      exact ⟨by omega, le_refl _, hc.symm, fun k hk1 hk2 => absurd hk2 (by omega),
        by simp⟩
    | error e =>
      have hr : retry_loop call attempt 0 = ⟨.error e, attempt, []⟩ := by
        rw [retry_loop, hc]
      rw [hr]
      dsimp only
      exact ⟨by omega, le_refl _, hc.symm, fun k hk1 hk2 => absurd hk2 (by omega),
        by simp⟩
  | succ r ih =>
    intro attempt
    cases hc : call attempt with
    | ok v =>
      have hr : retry_loop call attempt (r + 1) = ⟨.ok v, attempt, []⟩ := by
        rw [retry_loop, hc]
      rw [hr]
      dsimp only
      exact ⟨by omega, le_refl _, hc.symm, fun k hk1 hk2 => absurd hk2 (by omega),
        by simp⟩
    | error e =>
      have hr : retry_loop call attempt (r + 1)
          = ⟨(retry_loop call (attempt + 1) r).result,
             (retry_loop call (attempt + 1) r).attempts,
             tenacity_wait attempt :: (retry_loop call (attempt + 1) r).waits⟩ := by
        rw [retry_loop, hc]
        simp [retry_on_error]
      rw [hr]
      dsimp only
      obtain ⟨h1, h2, h3, h4, h5⟩ := ih (attempt + 1)
      refine ⟨by omega, by omega, h3, ?_, ?_⟩
      · intro k hk1 hk2
        rcases Nat.eq_or_lt_of_le hk1 with hk | hk
        · exact ⟨e, hk ▸ hc⟩
        · exact h4 k hk hk2
      · have hrange :
            (retry_loop call (attempt + 1) r).attempts - attempt
              = ((retry_loop call (attempt + 1) r).attempts - (attempt + 1)) + 1 := by
          omega
        have hfun :
            (fun i => tenacity_wait (attempt + 1 + i))
              = ((fun i => tenacity_wait (attempt + i)) ∘ (fun i => i + 1)) := by
          funext i
          simp only [Function.comp_apply]
          congr 1
          omega
        rw [h5, hrange, List.range_succ_eq_map, List.map_cons, List.map_map, hfun]
        simp

/-! ### C4: retry budget and classification -/

/-- A call whose first attempt fails with a quota-exhaustion error and
whose second attempt succeeds. -/
def c4_quota_then_ok : Nat → Except String Nat :=
  fun n => if n = 1 then .error "429 quota exceeded for model" else .ok 42

/-- C4 (counterexample): a quota-exhaustion failure does NOT surface
immediately — the decorator's retry predicate includes `Exception`, so the
failed first attempt is retried after a 2-second back-off and the run
consumes a second attempt, returning that attempt's success. -/
theorem c4_nonretryable_retried_counterexample :
    generate_content_with_retry c4_quota_then_ok
      = ⟨.ok 42, 2, [2]⟩ := by
  rfl

/-- C4 (amended): the external call is attempted at most 3 times with
exponential back-off (2s after the first failed attempt, 4s after the
second: `tenacity_wait n = min 10 (max 2 (2 ^ n))`), every attempt before
the final one failed, and the run's outcome is the final attempt's — but
ALL failures are retried, quota exhaustion and safety rejection included;
no failure bypasses the remaining retry budget. -/
theorem c4_retry_budget_amended {α : Type} (call : Nat → Except String α) :
    1 ≤ (generate_content_with_retry call).attempts ∧
    (generate_content_with_retry call).attempts ≤ 3 ∧
    (generate_content_with_retry call).result
      = call (generate_content_with_retry call).attempts ∧
    (∀ k, 1 ≤ k → k < (generate_content_with_retry call).attempts →
      ∃ e, call k = .error e) ∧
    (generate_content_with_retry call).waits
      = (List.range ((generate_content_with_retry call).attempts - 1)).map
          (fun i => tenacity_wait (1 + i)) := by
  obtain ⟨h1, h2, h3, h4, h5⟩ := retry_loop_spec call 2 1
  exact ⟨h2, by simpa [generate_content_with_retry] using h1, h3, h4, h5⟩

/-! ### Rate limiter (`GeminiClient._rate_limit`) -/

/-- The limiter state kept on the client: `request_count` and
`request_window_start` (wall-clock seconds, modelled as rationals). -/
structure RateState where
  request_count : Nat
  window_start : ℚ
deriving Repr

/-- `GeminiClient._rate_limit` (lines 120-138) as a function of the state
and the current wall-clock time `now`: returns the state after the call is
admitted together with the time slept. A sleep of `w` seconds ends at
`now + w`, which becomes the new window start. -/
def rate_limit_call (limit : Nat) (st : RateState) (now : ℚ) :
    RateState × ℚ :=
  let st' := if 60 ≤ now - st.window_start then ⟨0, now⟩ else st
  if limit ≤ st'.request_count then
    let wait := 60 - (now - st'.window_start)
    if 0 < wait then ⟨⟨0 + 1, now + wait⟩, wait⟩
    else ⟨⟨st'.request_count + 1, st'.window_start⟩, 0⟩
  else ⟨⟨st'.request_count + 1, st'.window_start⟩, 0⟩

/-! ### C9: the (N+1)th call in a window blocks, and no call is dropped -/

/-- C9: if `N = limit` requests have already been counted in the current
60-second window (so the window has not yet expired), the next call sleeps
for a strictly positive duration — exactly the remainder of the window —
and is then admitted and counted in a fresh window: the call is delayed,
never dropped. -/
theorem c9_rate_limit_blocks (limit : Nat) (st : RateState) (now : ℚ)
    (hcount : st.request_count = limit)
    (_h0 : 0 ≤ now - st.window_start) (h60 : now - st.window_start < 60) :
    0 < (rate_limit_call limit st now).2 ∧
    (rate_limit_call limit st now).2 = 60 - (now - st.window_start) ∧
    (rate_limit_call limit st now).1.request_count = 1 := by
  have hreset : ¬ (60 ≤ now - st.window_start) := by linarith
  have hwait : (0 : ℚ) < 60 - (now - st.window_start) := by linarith
  have hlim : limit ≤ st.request_count := hcount ▸ le_refl _
  rw [rate_limit_call]
  simp only [if_neg hreset]
  rw [if_pos hlim, if_pos hwait]
  exact ⟨hwait, rfl, rfl⟩

/-- Witness for `c9_rate_limit_blocks`: the 16th call under the flash
limit (15/min), 30 seconds into the window, sleeps 30 seconds. -/
theorem c9_rate_limit_blocks_witness :
    ((RateState.mk 15 0).request_count = 15 ∧
      (0 : ℚ) ≤ 30 - (RateState.mk 15 0).window_start ∧
      (30 : ℚ) - (RateState.mk 15 0).window_start < 60) ∧
    0 < (rate_limit_call 15 (RateState.mk 15 0) 30).2 :=
  ⟨⟨rfl, by norm_num, by norm_num⟩,
    (c9_rate_limit_blocks 15 (RateState.mk 15 0) 30 rfl (by norm_num)
      (by norm_num)).1⟩

/-! ### Summaries (`GeminiClient` summarize methods, `LKMLSummarizer`) -/

/-- The fields a parsed provider JSON object may carry, as read via
`summary_data.get(...)` by the three summarize methods. `none` models an
absent key. -/
structure ParsedFields where
  tldr : Option String := none
  key_points : Option (List String) := none
  email_type : Option String := none
  patch_version : Option String := none
  subsystems : Option (List String) := none
  importance : Option String := none
  is_security_related : Option Bool := none
  discussion_summary : Option String := none
  resolution : Option String := none
  action_items : Option (List String) := none
  key_contributors : Option (List String) := none
  thread_type : Option String := none
  highlights : Option (List String) := none
  by_subsystem : Option (List (String × List String)) := none
  hot_topics : Option (List String) := none
  critical_items : Option (List String) := none
  statistics : Option (List (String × Nat)) := none
deriving DecidableEq, Repr

/-- A summary dictionary as returned to callers of `GeminiClient`
(success results, error summaries, and the rows handled by
`LKMLSummarizer`). `none` models an absent key; in particular `error` is
present exactly on error summaries. -/
structure SummaryObj where
  summary_type : String := ""
  email_id : Option String := none
  subject : Option String := none
  date : Option String := none
  tldr : Option String := none
  key_points : Option (List String) := none
  email_type : Option String := none
  patch_version : Option String := none
  subsystems : Option (List String) := none
  importance : Option String := none
  is_security_related : Option Bool := none
  discussion_summary : Option String := none
  resolution : Option String := none
  action_items : Option (List String) := none
  key_contributors : Option (List String) := none
  thread_type : Option String := none
  highlights : Option (List String) := none
  by_subsystem : Option (List (String × List String)) := none
  hot_topics : Option (List String) := none
  critical_items : Option (List String) := none
  statistics : Option (List (String × Nat)) := none
  llm_model : Option String := none
  generated_at : Option String := none
  error : Option String := none
deriving DecidableEq, Repr

/-- Leading-whitespace strip on a character list. -/
def dropWs (l : List Char) : List Char := l.dropWhile Char.isWhitespace

/-- Python `str.strip()` (no arguments): remove leading and trailing
whitespace. -/
def pyStripWs (l : List Char) : List Char := (dropWs (dropWs l).reverse).reverse

/-- Split a character list at newline characters (Python
`str.split('\n')`). -/
def splitLines (l : List Char) : List (List Char) :=
  match l with
  | [] => [[]]
  | c :: rest =>
    let tail := splitLines rest
    if c = '\n' then [] :: tail
    else
      match tail with
      | [] => [[c]]
      | t :: ts => (c :: t) :: ts

/-- Python `'\n'.join(lines)`. -/
def joinLines : List (List Char) → List Char
  | [] => []
  | [t] => t
  | t :: ts => t ++ '\n' :: joinLines ts

/-- The markdown-fence stripping of `_parse_json_response` (lines
558-563): strip the text; if it starts with three backticks, drop the
first and last line. -/
def strip_code_fence (text : String) : String :=
  let cleaned := pyStripWs text.toList
  if ("```".toList).isPrefixOf cleaned then
    (joinLines ((splitLines cleaned).drop 1).dropLast).asString
  else cleaned.asString

/-- `GeminiClient._parse_json_response` (lines 555-569). The standard
library call `json.loads` is modelled by the parameter `jsonLoads`, where
`none` stands for a raised `JSONDecodeError` (the text is not valid JSON):
in that case the method swallows the error and returns the empty dict. -/
def parse_json_response (jsonLoads : String → Option ParsedFields)
    (response_text : String) : ParsedFields :=
  match jsonLoads (strip_code_fence response_text) with
  | some d => d
  | none => {}

/-- `GeminiClient._error_summary` (lines 571-579). -/
def error_summary (model_name summary_type err now : String) : SummaryObj :=
  { summary_type := summary_type
    error := some err
    tldr := some ("Error generating summary: " ++ (err.toList.take 100).asString)
    llm_model := some model_name
    generated_at := some now }

/-- `GeminiClient.summarize_email` (lines 232-280), as a function of the
cache lookup result, the (retry-wrapped) provider call, the JSON loader
and the clock. Returns the summary handed to the caller together with the
value written to the cache (`none` = nothing cached). -/
def summarize_email_model (model_name : String) (cached : Option SummaryObj)
    (call : Nat → Except String String)
    (jsonLoads : String → Option ParsedFields) (email : Email) (now : String) :
    SummaryObj × Option SummaryObj :=
  match cached with
  | some c => (c, none)
  | none =>
    match (generate_content_with_retry call).result with
    | .error e => (error_summary model_name "email" e now, none)
    | .ok text =>
      let sd := parse_json_response jsonLoads text
      let result : SummaryObj :=
        { summary_type := "email"
          email_id := some email.message_id
          tldr := some (sd.tldr.getD "")
          key_points := some (sd.key_points.getD [])
          email_type := some (sd.email_type.getD "discussion")
          patch_version := sd.patch_version
          subsystems := some (sd.subsystems.getD [])
          importance := some (sd.importance.getD "medium")
          is_security_related := some (sd.is_security_related.getD false)
          llm_model := some model_name
          generated_at := some now
          error := none }
      (result, some result)

/-- `GeminiClient.summarize_thread` (lines 282-334). The thread is
truncated with `_smart_truncate_thread` before the prompt is built; the
cache key is derived from the un-truncated member ids. -/
def summarize_thread_model (model_name : String) (cached : Option SummaryObj)
    (call : Nat → Except String String)
    (jsonLoads : String → Option ParsedFields) (thread_emails : List Email)
    (meta_subject : Option String) (now : String) :
    SummaryObj × Option SummaryObj :=
  match cached with
  | some c => (c, none)
  | none =>
    let _truncated := smart_truncate_thread thread_emails
    match (generate_content_with_retry call).result with
    | .error e => (error_summary model_name "thread" e now, none)
    | .ok text =>
      let sd := parse_json_response jsonLoads text
      let result : SummaryObj :=
        { summary_type := "thread"
          subject := meta_subject
          tldr := some (sd.tldr.getD "")
          key_points := some (sd.key_points.getD [])
          discussion_summary := some (sd.discussion_summary.getD "")
          resolution := some (sd.resolution.getD "")
          action_items := some (sd.action_items.getD [])
          subsystems := some (sd.subsystems.getD [])
          key_contributors := some (sd.key_contributors.getD [])
          importance := some (sd.importance.getD "medium")
          thread_type := some (sd.thread_type.getD "discussion")
          llm_model := some model_name
          generated_at := some now
          error := none }
      (result, some result)

/-- `GeminiClient.generate_daily_digest` (lines 336-381). -/
def generate_daily_digest_model (model_name : String) (cached : Option SummaryObj)
    (call : Nat → Except String String)
    (jsonLoads : String → Option ParsedFields) (date : String) (now : String) :
    SummaryObj × Option SummaryObj :=
  match cached with
  | some c => (c, none)
  | none =>
    match (generate_content_with_retry call).result with
    | .error e => (error_summary model_name "daily" e now, none)
    | .ok text =>
      let sd := parse_json_response jsonLoads text
      let result : SummaryObj :=
        { summary_type := "daily"
          date := some date
          tldr := some (sd.tldr.getD "")
          highlights := some (sd.highlights.getD [])
          by_subsystem := some (sd.by_subsystem.getD [])
          hot_topics := some (sd.hot_topics.getD [])
          critical_items := some (sd.critical_items.getD [])
          statistics := some (sd.statistics.getD [])
          llm_model := some model_name
          generated_at := some now
          error := none }
      (result, some result)

/-- `LKMLSummarizer.summarize_thread` (`summarizer.py` lines 26-91), as a
function of the pre-existing summary row, the thread row, the thread's
emails and the `GeminiClient.summarize_thread` result. Returns the value
handed to the caller and whether a summary row was stored: an existing
summary short-circuits (unless `force`), a missing thread or an empty
email list yields `none`, and a client result carrying an `error` key is
converted to `none` without being stored. -/
def summarizer_summarize_thread (force : Bool) (existing : Option SummaryObj)
    (thread_row : Option ThreadMeta) (thread_emails : List Email)
    (gemini_result : SummaryObj) : Option SummaryObj × Bool :=
  if force = false ∧ existing.isSome then (existing, false)
  else
    match thread_row with
    | none => (none, false)
    | some _ =>
      if thread_emails.isEmpty then (none, false)
      else if gemini_result.error.isSome then (none, false)
      else (some gemini_result, true)

/-! ### C3: terminal failures and the error summary -/

/-- Thread row used by the C3 counterexample. -/
def c3meta : ThreadMeta :=
  { root_message_id := "a", subject := "t", participant_count := 1,
    email_count := 1, first_post := none, last_post := none, tags := [] }

/-- Member email used by the C3 counterexample. -/
def c3email : Email :=
  { message_id := "a", subject := "t", from_addr := "u", date := "d",
    in_reply_to := "", references := [], body := "", raw := "" }

/-- The `GeminiClient.summarize_thread` outcome when every provider
attempt fails with a quota error: the error summary. -/
def c3_error_result : SummaryObj :=
  (summarize_thread_model "gemini-2.5-flash" none
    (fun _ => Except.error "429 quota exceeded") (fun _ => none) [c3email]
    (some "t") "2024-10-18T12:00:00").1

/-- C3 (counterexample): on a terminal failure the `GeminiClient` layer
does produce an error summary, but `LKMLSummarizer.summarize_thread` —
one of the summarization entry points — converts it to `None` for its
caller: the caller of a thread summarization request receives a null
result, not a well-formed summary object. -/
theorem c3_summarizer_returns_none_counterexample :
    c3_error_result.error = some "429 quota exceeded" ∧
    (summarizer_summarize_thread false none (some c3meta) [c3email]
        c3_error_result).1 = none ∧
    (summarizer_summarize_thread false none (some c3meta) [c3email]
        c3_error_result).2 = false := by
  refine ⟨rfl, rfl, rfl⟩

/-- C3 (amended): at the `GeminiClient` layer the claim holds for all
three request kinds — on a terminal failure (all retry attempts failed)
the caller receives the well-formed error summary, whose `tldr` embeds the
failure reason, which carries `generated_at` and the model identifier, and
which is NOT written to the cache; but `LKMLSummarizer.summarize_thread`
maps that error summary (and a missing thread or empty member list) to
`None`, so its own callers can receive a null result. -/
theorem c3_error_summary_amended (model_name err now : String) (email : Email)
    (thread_emails : List Email) (meta_subject : Option String) (date : String)
    (jsonLoads : String → Option ParsedFields) (meta : ThreadMeta) :
    summarize_email_model model_name none (fun _ => Except.error err)
        jsonLoads email now
      = (error_summary model_name "email" err now, none) ∧
    summarize_thread_model model_name none (fun _ => Except.error err)
        jsonLoads thread_emails meta_subject now
      = (error_summary model_name "thread" err now, none) ∧
    generate_daily_digest_model model_name none (fun _ => Except.error err)
        jsonLoads date now
      = (error_summary model_name "daily" err now, none) ∧
    (error_summary model_name "thread" err now).tldr
      = some ("Error generating summary: " ++ (err.toList.take 100).asString) ∧
    (error_summary model_name "thread" err now).generated_at = some now ∧
    (error_summary model_name "thread" err now).llm_model = some model_name ∧
    (summarizer_summarize_thread false none (some meta) thread_emails
        (error_summary model_name "thread" err now)).1 = none := by
  refine ⟨rfl, rfl, rfl, rfl, rfl, rfl, ?_⟩
  rw [summarizer_summarize_thread, if_neg (by simp)]
  cases h : thread_emails.isEmpty <;> simp [h, error_summary]

/-! ### C10: malformed JSON becomes a cached empty success -/

/-- C10: if the provider's response text is not valid JSON after fencing
is stripped (`jsonLoads` raises, i.e. returns `none`),
`_parse_json_response` returns the empty dict without raising, and both
`summarize_email` and `summarize_thread` then hand the caller a result
with NO `error` key whose content fields are empty defaults — and write
that empty result to the cache as a success. -/
theorem c10_malformed_json_cached_empty (model_name text now : String)
    (jsonLoads : String → Option ParsedFields) (email : Email)
    (thread_emails : List Email) (meta_subject : Option String)
    (hbad : jsonLoads (strip_code_fence text) = none) :
    parse_json_response jsonLoads text = {} ∧
    ((summarize_email_model model_name none (fun _ => Except.ok text)
        jsonLoads email now).1.error = none ∧
      (summarize_email_model model_name none (fun _ => Except.ok text)
        jsonLoads email now).1.tldr = some "" ∧
      (summarize_email_model model_name none (fun _ => Except.ok text)
        jsonLoads email now).1.key_points = some [] ∧
      (summarize_email_model model_name none (fun _ => Except.ok text)
        jsonLoads email now).1.subsystems = some [] ∧
      (summarize_email_model model_name none (fun _ => Except.ok text)
        jsonLoads email now).2
        = some (summarize_email_model model_name none (fun _ => Except.ok text)
            jsonLoads email now).1) ∧
    ((summarize_thread_model model_name none (fun _ => Except.ok text)
        jsonLoads thread_emails meta_subject now).1.error = none ∧
      (summarize_thread_model model_name none (fun _ => Except.ok text)
        jsonLoads thread_emails meta_subject now).1.tldr = some "" ∧
      (summarize_thread_model model_name none (fun _ => Except.ok text)
        jsonLoads thread_emails meta_subject now).1.key_points = some [] ∧
      (summarize_thread_model model_name none (fun _ => Except.ok text)
        jsonLoads thread_emails meta_subject now).2
        = some (summarize_thread_model model_name none (fun _ => Except.ok text)
            jsonLoads thread_emails meta_subject now).1) := by
  have hparse : parse_json_response jsonLoads text = {} := by
    rw [parse_json_response, hbad]
  have hgen :
      (generate_content_with_retry
        (fun _ : Nat => (Except.ok text : Except String String))).result
        = Except.ok text := rfl
  have hemail :
      summarize_email_model model_name none (fun _ => Except.ok text)
          jsonLoads email now
        = (let sd : ParsedFields := {}
           let result : SummaryObj :=
            { summary_type := "email"
              email_id := some email.message_id
              tldr := some (sd.tldr.getD "")
              key_points := some (sd.key_points.getD [])
              email_type := some (sd.email_type.getD "discussion")
              patch_version := sd.patch_version
              subsystems := some (sd.subsystems.getD [])
              importance := some (sd.importance.getD "medium")
              is_security_related := some (sd.is_security_related.getD false)
              llm_model := some model_name
              generated_at := some now
              error := none }
           (result, some result)) := by
    rw [summarize_email_model]
    dsimp only
    rw [hgen]
    dsimp only
    rw [hparse]
  have hthread :
      summarize_thread_model model_name none (fun _ => Except.ok text)
          jsonLoads thread_emails meta_subject now
        = (let sd : ParsedFields := {}
           let result : SummaryObj :=
            { summary_type := "thread"
              subject := meta_subject
              tldr := some (sd.tldr.getD "")
              key_points := some (sd.key_points.getD [])
              discussion_summary := some (sd.discussion_summary.getD "")
              resolution := some (sd.resolution.getD "")
              action_items := some (sd.action_items.getD [])
              subsystems := some (sd.subsystems.getD [])
              key_contributors := some (sd.key_contributors.getD [])
              importance := some (sd.importance.getD "medium")
              thread_type := some (sd.thread_type.getD "discussion")
              llm_model := some model_name
              generated_at := some now
              error := none }
           (result, some result)) := by
    rw [summarize_thread_model]
    dsimp only
    rw [hgen]
    dsimp only
    rw [hparse]
  refine ⟨hparse, ?_, ?_⟩
  · rw [hemail]
    exact ⟨rfl, rfl, rfl, rfl, rfl⟩
  · rw [hthread]
    exact ⟨rfl, rfl, rfl, rfl⟩

/-- Witness for `c10_malformed_json_cached_empty`: a loader that rejects
the (non-JSON) response text `not valid json`. -/
theorem c10_malformed_json_cached_empty_witness :
    ((fun _ : String => (none : Option ParsedFields))
        (strip_code_fence "not valid json") = none) ∧
    (summarize_email_model "gemini-2.5-flash" none
        (fun _ => Except.ok "not valid json") (fun _ => none)
        (Email.mk "a" "s" "u" "d" "" [] "" "") "t0").1.error = none :=
  ⟨rfl,
    (c10_malformed_json_cached_empty "gemini-2.5-flash" "not valid json" "t0"
      (fun _ => none) (Email.mk "a" "s" "u" "d" "" [] "" "") [] none rfl).2.1.1⟩

/-! ### Message-ID extraction (`EmailParser._parse_message`) -/

/-- Python `str.strip('<>')`: remove leading and trailing `<` and `>`
characters. -/
def pyStripAngles (l : List Char) : List Char :=
  let p := fun c => c = '<' ∨ c = '>'
  ((l.dropWhile (fun c => decide (p c))).reverse.dropWhile
    (fun c => decide (p c))).reverse

/-- `EmailParser._clean_message_id` (lines 98-106):
`message_id.strip().strip('<>')`, with the empty string passed through. -/
def clean_message_id (message_id : String) : String :=
  if message_id = "" then ""
  else (pyStripAngles (pyStripWs message_id.toList)).asString

/-- The `message_id` field computed by `EmailParser._parse_message` line
72: `self._clean_message_id(message.get('Message-ID', ''))`, where the
header value is `none` when the Message-ID header is absent. -/
def parse_message_id_field (message_id_header : Option String) : String :=
  clean_message_id (message_id_header.getD "")

/-! ### C2: identity of messages without a Message-ID header -/

/-- C2 (counterexample): a message whose Message-ID header is absent gets
the EMPTY `message_id` — no identity is synthesized — so the produced
record violates non-emptiness, and any two such messages in a run share
the identity `""` (a collision). -/
theorem c2_no_synthesis_counterexample :
    parse_message_id_field none = "" ∧
    parse_message_id_field none = parse_message_id_field none := by
  exact ⟨rfl, rfl⟩

/-- C2 (amended): for every message whose Message-ID header is absent (or
present but empty), `_parse_message` stores the empty string as
`message_id`: no deterministic timestamp+counter synthesis exists in the
normalizer, all such messages collide on the identity `""`, and such
records are excluded from the thread index (`email_map` drops falsy
ids). -/
theorem c2_missing_message_id_amended (hdr : Option String)
    (h : hdr = none ∨ hdr = some "") :
    parse_message_id_field hdr = "" ∧
    (∀ emails : List Email, email_map emails (parse_message_id_field hdr) = none) := by
  have hempty : parse_message_id_field hdr = "" := by
    rcases h with h | h <;> rw [h] <;> rfl
  refine ⟨hempty, ?_⟩
  intro emails
  rw [hempty, email_map]
  rw [List.find?_eq_none]
  intro e he
  have he' := List.mem_reverse.mp he
  have := List.of_mem_filter he'
  simp only [Bool.not_eq_true', beq_eq_false_iff_ne] at this
  simp [beq_eq_false_iff_ne, this]

/-- Witness for `c2_missing_message_id_amended` at an absent header. -/
theorem c2_missing_message_id_amended_witness :
    ((none : Option String) = none ∨ (none : Option String) = some "") ∧
    parse_message_id_field none = "" :=
  ⟨Or.inl rfl, (c2_missing_message_id_amended none (Or.inl rfl)).1⟩

/-! ### Persistence (`Database.insert_email`, `src/database/db.py`) -/

/-- A row of the `emails` table, with the columns written by
`insert_email` (lines 49-63); `id` is the SQLite rowid. -/
structure EmailRow where
  id : Nat
  message_id : String
  subject : String
  from_address : String
  date : String
  body : String
  in_reply_to : String
  references_list : List String
  raw_email : String
deriving DecidableEq, Repr

/-- Modelled from the spec: the `emails` table schema lives in
`schema.sql`, which is not among the sources; per spec §3 ("message_id
uniqueness") and §4.3 ("`insert_email(email) -> id`: unique on
message_id"), the INSERT raises `sqlite3.IntegrityError` exactly when a
row with the same `message_id` already exists. -/
def message_id_conflict (db : List EmailRow) (mid : String) : Bool :=
  db.any (fun r => r.message_id == mid)

/-- The next SQLite rowid: one more than the largest id in the table. -/
def next_row_id (db : List EmailRow) : Nat :=
  db.foldr (fun r m => max r.id m) 0 + 1

/-- `Database.insert_email` (lines 32-75): try the INSERT and return
`cursor.lastrowid`; on `IntegrityError` (duplicate `message_id`,
`message_id_conflict`) SELECT and return the pre-existing row's id
(`none` models the `result is None` fallback, which cannot occur when the
conflict came from the uniqueness of `message_id`). -/
def insert_email (db : List EmailRow) (e : Email) : List EmailRow × Option Nat :=
  if message_id_conflict db e.message_id then
    match db.find? (fun r => r.message_id == e.message_id) with
    | some r => (db, some r.id)
    | none => (db, none)
  else
    let rid := next_row_id db
    (db ++ [⟨rid, e.message_id, e.subject, e.from_addr, e.date, e.body,
             e.in_reply_to, e.references, e.raw⟩],
      some rid)

/-! ### C7: duplicate insert is an idempotent no-op -/

/-- C7: starting from a table with no row for `e.message_id`, inserting
`e` twice stores exactly one row for that identity: the second call leaves
the table unchanged, raises no error, and returns the id stored by the
first call. -/
theorem c7_insert_email_dedup (db : List EmailRow) (e : Email)
    (hfresh : message_id_conflict db e.message_id = false) :
    (insert_email (insert_email db e).1 e).1 = (insert_email db e).1 ∧
    (insert_email (insert_email db e).1 e).2 = (insert_email db e).2 ∧
    (insert_email db e).2 = some (next_row_id db) ∧
    ((insert_email db e).1.filter
        (fun r => r.message_id == e.message_id)).length = 1 ∧
    (insert_email db e).1.length = db.length + 1 := by
  have hnotmem : ∀ r ∈ db, (r.message_id == e.message_id) = false := by
    intro r hr
    cases hbe : (r.message_id == e.message_id) with
    | false => rfl
    | true =>
      exfalso
      have hany : message_id_conflict db e.message_id = true := by
        rw [message_id_conflict]
        exact List.any_eq_true.mpr ⟨r, hr, hbe⟩
      rw [hany] at hfresh
      exact Bool.noConfusion hfresh
  set row : EmailRow :=
    ⟨next_row_id db, e.message_id, e.subject, e.from_addr, e.date, e.body,
      e.in_reply_to, e.references, e.raw⟩ with hrow
  have h1 : insert_email db e = (db ++ [row], some (next_row_id db)) := by
    rw [insert_email, hfresh]
    rfl
  have hfinddb : db.find? (fun r => r.message_id == e.message_id) = none :=
    List.find?_eq_none.mpr (fun x hx => by simp [hnotmem x hx])
  have hfind :
      (db ++ [row]).find? (fun r => r.message_id == e.message_id) = some row := by
    rw [List.find?_append, hfinddb]
    simp [hrow]
  have hc : message_id_conflict (db ++ [row]) e.message_id = true := by
    rw [message_id_conflict]
    exact List.any_eq_true.mpr ⟨row, by simp, by simp [hrow]⟩
  have h2 : insert_email (db ++ [row]) e = (db ++ [row], some row.id) := by
    rw [insert_email, hc]
    simp only [if_true]
    rw [hfind]
  have hfilterdb : db.filter (fun r => r.message_id == e.message_id) = [] := by
    rw [List.filter_eq_nil_iff]
    intro a ha
    simp [hnotmem a ha]
  refine ⟨?_, ?_, ?_, ?_, ?_⟩
  · rw [h1, h2]
  · rw [h1, h2]
  · rw [h1]
  · rw [h1]
    simp [List.filter_append, hfilterdb, hrow]
  · rw [h1]
    simp

/-- Email used by the C7 witness. -/
def c7email : Email :=
  { message_id := "dup@x", subject := "s", from_addr := "u", date := "d",
    in_reply_to := "", references := [], body := "b", raw := "r" }

/-- Witness for `c7_insert_email_dedup`: double insert into the empty
table. -/
theorem c7_insert_email_dedup_witness :
    (message_id_conflict [] c7email.message_id = false) ∧
    ((insert_email (insert_email [] c7email).1 c7email).1
        = (insert_email [] c7email).1 ∧
      (insert_email (insert_email [] c7email).1 c7email).2
        = (insert_email [] c7email).2) :=
  ⟨rfl,
    ⟨(c7_insert_email_dedup [] c7email rfl).1,
      (c7_insert_email_dedup [] c7email rfl).2.1⟩⟩

end OSH
